import Mathlib

/-!
Verification of the sentiment-analysis serverless pipeline.

The definitions below are a shallow embedding of the Python sources:
- `src/backend/sentiment_analyzer/lambda_function.py` (single-text path)
- `src/backend/batch_processor/batch_handler.py` (batch path)
- `src/backend/history/history_handler.py` (read path)

Python strings are modelled as Lean `String` (a list of characters), and the
string primitives the code relies on (`str`, `zfill`, `split`, `int`,
`startswith` / DynamoDB `begins_with`, `strip`, slicing) are embedded as
explicit recursive functions on the character list, mirroring Python
semantics.  The DynamoDB table is modelled as a list of items with put/get/
query operations (put overwrites by composite key; query filters one
partition by a leading sort-key pattern, returns items in sort-key order, and applies
the page `Limit`).  The numeric engine (tokenizer + ONNX forward pass) is
modelled as an oracle producing either a value or an exception, except for
the softmax/argmax post-processing of `analyze_sentiment`, which is embedded
over the real numbers.
-/

namespace SentimentPipeline

/-! ## Python string primitives -/

/-- Characters treated as whitespace by Python `str.strip()`. -/
def isPySpace (c : Char) : Bool :=
  c == ' ' || c == '\t' || c == '\n' || c == '\r' || c == '\x0b' || c == '\x0c'

/-- Python `text.strip()`. -/
def pyStrip (s : String) : String :=
  ⟨((s.data.dropWhile isPySpace).reverse.dropWhile isPySpace).reverse⟩

/-- Python `text[:n]` (slicing by code points). -/
def pySlice (n : Nat) (s : String) : String := ⟨s.data.take n⟩

/-- Decimal digits, most significant first, with structural fuel (any fuel
above the value itself is enough). -/
def natDigitsAux : Nat → Nat → List Char
  | 0, _ => []
  | fuel + 1, n =>
    if n < 10 then [Nat.digitChar n]
    else natDigitsAux fuel (n / 10) ++ [Nat.digitChar (n % 10)]

/-- Decimal digits of a natural number, most significant first: Python `str(n)`
for a non-negative integer. -/
def natDigits (n : Nat) : List Char := natDigitsAux (n + 1) n

/-- Python `str(n)` for a natural number. -/
def pyStr (n : Nat) : String := ⟨natDigits n⟩

/-- Python `int(s)` on a string of decimal digits. -/
def charsToNat (cs : List Char) : Nat :=
  cs.foldl (fun a c => a * 10 + (c.toNat - 48)) 0

/-- Python `s.zfill(w)` on a string of digits: left-pad with zeros to width `w`. -/
def pyZfillChars (w : Nat) (cs : List Char) : List Char :=
  List.replicate (w - cs.length) '0' ++ cs

/-- Python `s.split(sep)` for a one-character separator, at the character level. -/
def pySplitChars (sep : Char) : List Char → List (List Char)
  | [] => [[]]
  | c :: cs =>
    match pySplitChars sep cs with
    | r :: rs => if c = sep then [] :: r :: rs else (c :: r) :: rs
    | [] => [[c]]

/-- Python `s.startswith(p)` / DynamoDB `begins_with`, at the character level. -/
def listBegins : List Char → List Char → Bool
  | [], _ => true
  | _ :: _, [] => false
  | p :: ps, c :: cs => p == c && listBegins ps cs

/-- Python `s.startswith(p)` / DynamoDB `begins_with` on strings. -/
def beginsWith (p s : String) : Bool := listBegins p.data s.data

/-! ## Inference model

The tokenizer and the ONNX forward pass are external numeric collaborators;
they are modelled as an oracle `engine : String → Except String RawResult`
that either produces the post-processed `(sentiment, confidence)` pair or
raises an exception (the `Except.error` message plays the role of `str(e)`).
Model loading (`load_model`, run before the `try` block in both files) is
an oracle `loadModel : Except String Unit`. -/

/-- The `(sentiment, confidence)` pair produced by softmax + argmax on the
model logits.  Confidence is carried as a rational (the pipeline only stores
and copies it; the numeric properties of softmax are treated separately over
the reals). -/
structure RawResult where
  sentiment : String
  confidence : ℚ
deriving DecidableEq

/-- Result dictionary returned by `analyze_sentiment` in
`batch_processor/batch_handler.py` (lines 114-159): the `error` key is
present exactly on the sentinel. -/
structure SentResult where
  sentiment : String
  confidence : ℚ
  error : Option String
deriving DecidableEq

/-- `batch_processor/batch_handler.py`, `analyze_sentiment` (lines 114-159):
`load_model()` runs before the `try`, so its exceptions propagate; any
exception inside the `try` (tokenize / forward pass) is converted to the
`{sentiment: ERROR, confidence: 0.0, error: str(e)}` sentinel. -/
def analyze_sentiment_batch (loadModel : Except String Unit)
    (engine : String → Except String RawResult) (text : String) :
    Except String SentResult := do
  _ ← loadModel
  pure <| match engine text with
    | .ok r => { sentiment := r.sentiment, confidence := r.confidence, error := none }
    | .error e => { sentiment := "ERROR", confidence := 0, error := some e }

/-- Result dictionary returned by `analyze_sentiment` in
`sentiment_analyzer/lambda_function.py` (lines 131-169). -/
structure SingleResult where
  sentiment : String
  confidence : ℚ
  text_preview : String
deriving DecidableEq

/-- `sentiment_analyzer/lambda_function.py`, `analyze_sentiment`
(lines 131-169): no `try`/`except` at all — exceptions from `load_model`,
the tokenizer or the forward pass propagate to the caller.  `text_preview`
is `text[:100]`. -/
def analyze_sentiment_single (loadModel : Except String Unit)
    (engine : String → Except String RawResult) (text : String) :
    Except String SingleResult := do
  _ ← loadModel
  let r ← engine text
  pure { sentiment := r.sentiment, confidence := r.confidence,
         text_preview := pySlice 100 text }

/-! ## Batch row processing -/

/-- One parsed input row of a batch (`batch_handler.py` lines 341-346). -/
structure RowInput where
  text : String
  user_id : String
  row : Nat
deriving DecidableEq

/-- One entry of the `results` list built by the batch handler loop
(`batch_handler.py` lines 363-385).  The success branch copies the
dictionary returned by `analyze_sentiment` (including a possible ERROR
sentinel) and tags it `status: success`; the exception branch records
`sentiment: ERROR, confidence: 0.0, status: failed, error: str(e)` and has
no `user_id` key. -/
structure RowResult where
  row : Nat
  text : String
  user_id : Option String
  sentiment : String
  confidence : ℚ
  status : String
  error : Option String
deriving DecidableEq

/-- Row list built from a direct `texts` input
(`batch_handler.py` lines 337-346): `'row': i` from `enumerate(texts)`,
`'user_id': body.get('user_id', 'batch-user')`. -/
def mkRows (texts : List String) (user_id : Option String) : List RowInput :=
  texts.enum.map fun p =>
    { text := p.2, user_id := user_id.getD "batch-user", row := p.1 }

/-- One iteration of the batch handler loop (`batch_handler.py` lines
364-385): the `try` branch copies the `analyze_sentiment` dictionary —
whatever its `sentiment` is — and tags the entry `status: success`; the
`except` branch converts a raised exception to a failed entry. -/
def processRow (loadModel : Except String Unit)
    (engine : String → Except String RawResult) (row : RowInput) :
    RowResult :=
  match analyze_sentiment_batch loadModel engine row.text with
  | .ok s =>
    { row := row.row, text := row.text, user_id := some row.user_id,
      sentiment := s.sentiment, confidence := s.confidence,
      status := "success", error := none }
  | .error e =>
    { row := row.row, text := row.text, user_id := none,
      sentiment := "ERROR", confidence := 0, status := "failed",
      error := some e }

/-- The per-row loop of `batch_handler.py` `lambda_handler` (lines 363-385):
each row is processed independently, in input order; a failure in one row
never aborts or skips later rows. -/
def processRows (loadModel : Except String Unit)
    (engine : String → Except String RawResult) (rows : List RowInput) :
    List RowResult :=
  rows.map (processRow loadModel engine)

/-- `sum(1 for r in results if r.get('status') == 'success')`
(`batch_handler.py` lines 235 and 391). -/
def successCount (results : List RowResult) : Nat :=
  (results.filter fun r => r.status == "success").length

/-! ## The DynamoDB single-table model

DynamoDB items are heterogeneous dictionaries; they are flattened into one
record with the union of the attributes the code writes, defaulting unused
attributes.  This matches the read side, which accesses every attribute
with `item.get(attr, default)`. -/

structure Item where
  PK : String
  SK : String
  text : String := ""
  sentiment : String := ""
  confidence : ℚ := 0
  user_id : String := ""
  status : String := ""
  total_rows : Nat := 0
  success_count : Nat := 0
  failed_count : Nat := 0
  batch_id : String := ""
  timestamp : Int := 0
  created_at : String := ""
  completed_at : String := ""
  type : String := ""
deriving DecidableEq

/-- The table: a collection of items keyed by the composite (PK, SK). -/
abbrev Store := List Item

/-- `table.put_item(Item=...)`: overwrite the item with the same composite
key, if any. -/
def putItem (store : Store) (it : Item) : Store :=
  it :: store.filter fun j => !(j.PK == it.PK && j.SK == it.SK)

/-- `table.get_item(Key=...)`: point lookup by exact composite key. -/
def getItem (store : Store) (pk sk : String) : Option Item :=
  store.find? fun it => it.PK == pk && it.SK == sk

/-- `table.query(KeyConditionExpression=Key('PK').eq(pk) &
Key('SK').begins_with(pfx), Limit=limit)`: the items of one partition whose
sort key starts with `pfx`, in ascending sort-key order, truncated to the
page limit. -/
def queryBegins (store : Store) (pk pfx : String) (limit : Nat) : List Item :=
  (((store.filter fun it => it.PK == pk && beginsWith pfx it.SK).mergeSort
    fun a b => decide (a.SK ≤ b.SK)).take limit)

/-- `table.query(KeyConditionExpression=Key('PK').eq(pk), Limit=limit,
ScanIndexForward=False)`: one whole partition, descending sort-key order,
truncated to the page limit (`history_handler.py` lines 89-93). -/
def queryDesc (store : Store) (pk : String) (limit : Nat) : List Item :=
  (((store.filter fun it => it.PK == pk).mergeSort
    fun a b => decide (b.SK ≤ a.SK)).take limit)

/-! ## save_batch_results (batch_handler.py lines 204-275) -/

/-- The per-row item (`batch_handler.py` lines 221-230):
`SK = 'ROW#' + str(result['row']).zfill(6)`. -/
def rowItem (batch_id : String) (ts : Int) (r : RowResult) : Item :=
  { PK := "BATCH#" ++ batch_id,
    SK := "ROW#" ++ String.mk (pyZfillChars 6 (natDigits r.row)),
    text := r.text, sentiment := r.sentiment, confidence := r.confidence,
    user_id := r.user_id.getD "anonymous", timestamp := ts,
    status := r.status }

/-- The batch SUMMARY item (`batch_handler.py` lines 234-249). -/
def summaryItem (batch_id : String) (results : List RowResult) (ts : Int)
    (now : String) : Item :=
  { PK := "BATCH#" ++ batch_id, SK := "SUMMARY",
    total_rows := results.length,
    success_count := successCount results,
    failed_count := results.length - successCount results,
    status := "COMPLETED", timestamp := ts, completed_at := now }

/-- The user→batch link item (`batch_handler.py` lines 253-268), written when
`results` is non-empty, attributed to the first row. -/
def userLinkItem (batch_id : String) (results : List RowResult) (ts : Int)
    (now : String) (r0 : RowResult) : Item :=
  { PK := "USER#" ++ r0.user_id.getD "anonymous", SK := "BATCH#" ++ batch_id,
    batch_id := batch_id, total_rows := results.length,
    success_count := successCount results,
    failed_count := results.length - successCount results,
    status := "COMPLETED", timestamp := ts, created_at := now,
    type := "BATCH" }

/-- The user-link write of `save_batch_results`: performed only `if results:`
(non-empty batch), attributed to the first row. -/
def linkItems (batch_id : String) (results : List RowResult) (ts : Int)
    (now : String) : List Item :=
  match results with
  | [] => []
  | r0 :: _ => [userLinkItem batch_id results ts now r0]

/-- The items `save_batch_results` writes, in write order: each row item,
then the summary, then (for a non-empty batch) the user link. -/
def batchItems (batch_id : String) (results : List RowResult) (ts : Int)
    (now : String) : List Item :=
  results.map (rowItem batch_id ts) ++ [summaryItem batch_id results ts now] ++
    linkItems batch_id results ts now

/-- Perform a sequence of `put_item` calls inside the `try` of
`save_batch_results`: `put` is the oracle deciding whether a call raises;
on the first raise the `except` clause swallows the exception and the
already-performed writes remain (lines 272-275). -/
def runPuts (put : Item → Except String Unit) (store : Store) :
    List Item → Store
  | [] => store
  | it :: rest =>
    match put it with
    | .ok _ => runPuts put (putItem store it) rest
    | .error _ => store

/-- `save_batch_results(batch_id, results)` (`batch_handler.py` lines
204-275): writes row items, summary and user link; any storage exception is
caught and swallowed (the source comments that it must not raise, so the
caller still gets its results). -/
def save_batch_results (put : Item → Except String Unit) (store : Store)
    (batch_id : String) (results : List RowResult) (ts : Int)
    (now : String) : Store :=
  runPuts put store (batchItems batch_id results ts now)

/-- The always-succeeding `put_item` oracle. -/
def okPut : Item → Except String Unit := fun _ => .ok ()

/-! ## get_batch_results (history_handler.py lines 130-204) -/

/-- One formatted row of a batch read back
(`history_handler.py` lines 179-187). -/
structure RowView where
  row : Nat
  text : String
  sentiment : String
  confidence : ℚ
  status : String
deriving DecidableEq

/-- The dictionary returned for a found batch
(`history_handler.py` lines 192-200). -/
structure BatchView where
  batch_id : String
  status : String
  total_rows : Nat
  success_count : Nat
  failed_count : Nat
  completed_at : String
  results : List RowView
deriving DecidableEq

/-- Return value of `get_batch_results`: either the
`{error: 'Batch not found'}` dictionary or the batch view. -/
inductive GetBatchResult
  | notFound (batch_id : String)
  | found (v : BatchView)
deriving DecidableEq

/-- `int(item['SK'].split('#')[1])` (`history_handler.py` line 182).  On the
keys written by `save_batch_results` the digits are always present; the
`getD` defaults here stand for the `IndexError`/`ValueError` Python would
raise on a malformed key, which never occurs on this schema. -/
def rowOfSK (sk : String) : Nat :=
  charsToNat ((pySplitChars '#' sk.data).getD 1 [])

/-- `get_batch_results(batch_id)` (`history_handler.py` lines 130-204):
point-get the SUMMARY item (missing → `Batch not found`), range-query the
`ROW#` items with `Limit=1000`, parse the numeric row index out of each
sort key, and sort the rows by that numeric index. -/
def get_batch_results (store : Store) (batch_id : String) : GetBatchResult :=
  match getItem store ("BATCH#" ++ batch_id) "SUMMARY" with
  | none => .notFound batch_id
  | some summary =>
    let items := queryBegins store ("BATCH#" ++ batch_id) "ROW#" 1000
    let results : List RowView := items.map fun it =>
      { row := rowOfSK it.SK, text := it.text, sentiment := it.sentiment,
        confidence := it.confidence, status := it.status }
    let results := results.mergeSort fun a b => decide (a.row ≤ b.row)
    .found { batch_id := batch_id, status := summary.status,
             total_rows := summary.total_rows,
             success_count := summary.success_count,
             failed_count := summary.failed_count,
             completed_at := summary.completed_at,
             results := results }

/-- Number of row results carried by a `get_batch_results` return value. -/
def gbResLen : GetBatchResult → Nat
  | .notFound _ => 0
  | .found v => v.results.length

/-- `total_rows` carried by a `get_batch_results` return value. -/
def gbTotal : GetBatchResult → Nat
  | .notFound _ => 0
  | .found v => v.total_rows

/-! ## Single-text handler (sentiment_analyzer/lambda_function.py 208-288) -/

/-- The request after body parsing: `text = body.get('text', '')`,
`user_id = body.get('user_id', 'anonymous')`. -/
structure AnalyzeEvent where
  text : String
  user_id : Option String
deriving DecidableEq

/-- Status dictionary returned by `save_to_dynamodb`
(`lambda_function.py` lines 172-205). -/
structure DbStatus where
  success : Bool
  detail : Option String
deriving DecidableEq

/-- `save_to_dynamodb` (`lambda_function.py` lines 172-205): local mode and a
missing table name short-circuit; otherwise the `put_item` outcome is caught
and converted to a status dictionary — the function never raises. -/
def save_to_dynamodb (awsAvailable : Bool) (tableName : Option String)
    (put : Except String Unit) : DbStatus :=
  if !awsAvailable then { success := true, detail := some "Local mode (skipped DB)" }
  else
    match tableName with
    | none => { success := false, detail := some "DYNAMODB_TABLE env var missing" }
    | some _ =>
      match put with
      | .ok _ => { success := true, detail := none }
      | .error e => { success := false, detail := some e }

/-- Body of the single-text HTTP response. -/
inductive AnalyzeBody
  | invalid (msg : String)
  | serverError (msg detail : String)
  | ok (user_id sentiment : String) (confidence : ℚ) (text_preview : String)
       (db_save_status : DbStatus)
deriving DecidableEq

structure AnalyzeResponse where
  statusCode : Nat
  body : AnalyzeBody
deriving DecidableEq

/-- `lambda_handler` of `sentiment_analyzer/lambda_function.py`
(lines 208-288): validate (empty after strip → 400; more than 5000
characters → 400), run `analyze_sentiment` (an exception reaches the outer
handler → 500 with a generic message), save best-effort, respond 200. -/
def lambda_handler_single (loadModel : Except String Unit)
    (engine : String → Except String RawResult) (awsAvailable : Bool)
    (tableName : Option String) (put : Except String Unit)
    (ev : AnalyzeEvent) : AnalyzeResponse :=
  if ev.text = "" ∨ (pyStrip ev.text).length = 0 then
    { statusCode := 400, body := .invalid "Text field is required and cannot be empty" }
  else if ev.text.length > 5000 then
    { statusCode := 400, body := .invalid "Text exceeds maximum length of 5000 characters" }
  else
    match analyze_sentiment_single loadModel engine ev.text with
    | .error e => { statusCode := 500, body := .serverError "Internal server error" e }
    | .ok r =>
      let db := save_to_dynamodb awsAvailable tableName put
      { statusCode := 200,
        body := .ok (ev.user_id.getD "anonymous") r.sentiment r.confidence
          r.text_preview db }

/-! ## Batch handler (batch_processor/batch_handler.py 307-425) -/

/-- The request after body parsing, direct-`texts` variant. -/
structure BatchEvent where
  texts : List String
  user_id : Option String
  batch_id : String
deriving DecidableEq

/-- The 200 response body of the batch handler
(`batch_handler.py` lines 402-409). -/
structure BatchOkBody where
  batch_id : String
  total_rows : Nat
  success_count : Nat
  failed_count : Nat
  status : String
  message : String
deriving DecidableEq

inductive BatchBody
  | invalid (msg : String)
  | ok (b : BatchOkBody)
deriving DecidableEq

structure BatchResponse where
  statusCode : Nat
  body : BatchBody
deriving DecidableEq

/-- `lambda_handler` of `batch_processor/batch_handler.py` (lines 307-425),
direct-`texts` variant (no S3 key): empty `texts` → 400; otherwise every row
is processed in order with per-row error isolation, results are saved
best-effort, and the response is built from the results alone. -/
def lambda_handler_batch (loadModel : Except String Unit)
    (engine : String → Except String RawResult)
    (put : Item → Except String Unit) (store : Store) (ts : Int)
    (now : String) (ev : BatchEvent) : BatchResponse × Store :=
  if ev.texts.isEmpty then
    ({ statusCode := 400,
       body := .invalid "Either \"texts\" array or S3 \"key\" is required" }, store)
  else
    let rows := mkRows ev.texts ev.user_id
    let results := processRows loadModel engine rows
    let store2 := save_batch_results put store ev.batch_id results ts now
    let sc := successCount results
    ({ statusCode := 200,
       body := .ok { batch_id := ev.batch_id, total_rows := results.length,
                     success_count := sc,
                     failed_count := results.length - sc,
                     status := "COMPLETED",
                     message := "Processed " ++ pyStr results.length ++
                       " rows successfully" } }, store2)

/-- `total_rows` of a batch response body (0 for an error body). -/
def batchBodyTotal : BatchBody → Nat
  | .invalid _ => 0
  | .ok b => b.total_rows

/-- `success_count` of a batch response body (0 for an error body). -/
def batchBodySuccess : BatchBody → Nat
  | .invalid _ => 0
  | .ok b => b.success_count

/-- `failed_count` of a batch response body (0 for an error body). -/
def batchBodyFailed : BatchBody → Nat
  | .invalid _ => 0
  | .ok b => b.failed_count

/-! ## History handler (history/history_handler.py 38-127 and 207-298) -/

/-- One formatted timeline entry (`history_handler.py` lines 99-121). -/
structure TimelineEntry where
  type : String
  batch_id : String
  text : String
  sentiment : String
  confidence : ℚ
  timestamp : Int
  created_at : String
  summary : String
deriving DecidableEq

/-- Formatting of one queried item (`history_handler.py` lines 100-121):
items whose SK starts with `BATCH#` are user-batch links, everything else is
an analysis record. -/
def formatTimelineItem (it : Item) : TimelineEntry :=
  if beginsWith "BATCH#" it.SK then
    { type := "BATCH", batch_id := it.batch_id,
      text := "Batch Processing (" ++ pyStr it.total_rows ++ " items)",
      sentiment := it.status,
      confidence := if it.status = "COMPLETED" then 1 else 0,
      timestamp := it.timestamp, created_at := it.created_at,
      summary := "Success: " ++ pyStr it.success_count ++ ", Failed: " ++
        pyStr it.failed_count }
  else
    { type := "ANALYSIS", batch_id := "", text := it.text,
      sentiment := it.sentiment, confidence := it.confidence,
      timestamp := it.timestamp, created_at := it.created_at, summary := "" }

/-- `get_user_history(user_id, limit)` (`history_handler.py` lines 38-127):
query the whole `USER#` partition most-recent-first with the given page
limit and format each item. -/
def get_user_history (store : Store) (user_id : String) (limit : Nat) :
    List TimelineEntry :=
  (queryDesc store ("USER#" ++ user_id) limit).map formatTimelineItem

/-- The request query parameters (`history_handler.py` lines 230-234), with
`limit` already parsed by `int(...)` and defaulted to 50. -/
structure HistoryParams where
  user_id : Option String
  batch_id : Option String
  limit : Option Int
deriving DecidableEq

/-- The limit actually served (`history_handler.py` lines 234-240):
`int(params.get('limit', 50))`, then capped at 1000, then values below 1
replaced by 10. -/
def effectiveLimit (raw : Option Int) : Int :=
  let limit := raw.getD 50
  let limit := if limit > 1000 then 1000 else limit
  if limit < 1 then 10 else limit

inductive HistoryBody
  | invalid (msg : String)
  | batch (g : GetBatchResult)
  | history (user_id : String) (count : Nat) (entries : List TimelineEntry)
deriving DecidableEq

structure HistoryResponse where
  statusCode : Nat
  body : HistoryBody
deriving DecidableEq

/-- `lambda_handler` of `history/history_handler.py` (lines 207-298):
clamp the limit, then dispatch on `batch_id` / `user_id`. -/
def lambda_handler_history (store : Store) (params : HistoryParams) :
    HistoryResponse :=
  let limit := effectiveLimit params.limit
  match params.batch_id with
  | some batch_id =>
    { statusCode := 200, body := .batch (get_batch_results store batch_id) }
  | none =>
    match params.user_id with
    | some user_id =>
      let history := get_user_history store user_id limit.toNat
      { statusCode := 200, body := .history user_id history.length history }
    | none =>
      { statusCode := 400,
        body := .invalid "Either user_id or batch_id parameter is required" }

/-! ## Numeric post-processing over the reals

`softmax` (`lambda_function.py` lines 64-67 and `batch_handler.py` lines
48-51) and the argmax selection of `analyze_sentiment` (lines 157-163),
embedded over ℝ (the "within floating-point tolerance" reading of the
specification).  The model produces two logits (index 0 = NEGATIVE,
index 1 = POSITIVE). -/

/-- `softmax(x) = exp(x - max(x)) / exp(x - max(x)).sum()` for two logits. -/
noncomputable def softmax2 (x0 x1 : ℝ) : ℝ × ℝ :=
  let m := max x0 x1
  let e0 := Real.exp (x0 - m)
  let e1 := Real.exp (x1 - m)
  (e0 / (e0 + e1), e1 / (e0 + e1))

/-- `sentiment_idx = np.argmax(probabilities)` (first index on ties),
`confidence = probabilities[sentiment_idx]`, label map `0 = NEGATIVE,
1 = POSITIVE`. -/
noncomputable def argmaxLabel (x0 x1 : ℝ) : String × ℝ :=
  let p := softmax2 x0 x1
  if p.1 < p.2 then ("POSITIVE", p.2) else ("NEGATIVE", p.1)

/-- The pure inference function `infer(text) -> (label, confidence)`: the
tokenizer and forward pass are an oracle producing the two class logits. -/
noncomputable def infer (logits : String → ℝ × ℝ) (text : String) :
    String × ℝ :=
  argmaxLabel (logits text).1 (logits text).2

/-- View of one stored row as the read path reconstructs it. -/
def rowView (r : RowResult) : RowView :=
  { row := r.row, text := r.text, sentiment := r.sentiment,
    confidence := r.confidence, status := r.status }


/-- One dense successful row at index `i`. -/
def denseRow (i : Nat) : RowResult :=
  { row := i, text := "sample", user_id := some "u1",
    sentiment := "POSITIVE", confidence := 1/2, status := "success",
    error := none }

/-- A dense all-success batch of `n` rows, used as the concrete oversized
batch. -/
def denseRows (n : Nat) : List RowResult := (List.range n).map denseRow


/-! ## Concrete oracles and inputs used by counterexamples and witnesses -/

/-- An engine that always succeeds with a positive verdict. -/
def engPos : String → Except String RawResult :=
  fun _ => .ok { sentiment := "POSITIVE", confidence := 9/10 }

/-- An engine that always raises. -/
def engBoom : String → Except String RawResult := fun _ => .error "boom"

/-- An engine that raises on one specific text and succeeds on the rest. -/
def engFaultOnBad : String → Except String RawResult := fun t =>
  if t = "bad input" then .error "tokenizer fault"
  else .ok { sentiment := "POSITIVE", confidence := 9/10 }

/-- A 5001-character text, above the request-boundary limit. -/
def longText : String := ⟨List.replicate 5001 'a'⟩


/-- The three-row batch of the specification round-trip example: two
successful rows and one failed row, dense indices 0, 1, 2. -/
def wRows : List RowResult :=
  [{ row := 0, text := "I love this!", user_id := some "u1",
     sentiment := "POSITIVE", confidence := 99/100, status := "success",
     error := none },
   { row := 1, text := "meh", user_id := none, sentiment := "ERROR",
     confidence := 0, status := "failed", error := some "boom" },
   { row := 2, text := "great", user_id := some "u1",
     sentiment := "POSITIVE", confidence := 9/10, status := "success",
     error := none }]


/-! ### Round-trip lemmas for the decimal key encoding -/

theorem digitChar_toNat {d : Nat} (h : d < 10) : (Nat.digitChar d).toNat = 48 + d := by
  interval_cases d <;> rfl

theorem mem_natDigitsAux_ne_hash {c : Char} :
    ∀ {fuel n : Nat}, n < fuel → c ∈ natDigitsAux fuel n → c ≠ '#' := by
  intro fuel
  induction fuel with
  | zero => intro n h; omega
  | succ fuel ih =>
    intro n hn h
    rw [natDigitsAux] at h
    by_cases h10 : n < 10
    · rw [if_pos h10] at h
      rcases List.mem_singleton.mp h with rfl
      interval_cases n <;> decide
    · rw [if_neg h10] at h
      rcases List.mem_append.mp h with h1 | h2
      · refine ih ?_ h1
        have := Nat.div_lt_self (by omega : 0 < n) (by omega : (1 : Nat) < 10)
        omega
      · rcases List.mem_singleton.mp h2 with rfl
        have : n % 10 < 10 := Nat.mod_lt _ (by omega)
        interval_cases h : (n % 10) <;> decide

theorem mem_natDigits_ne_hash {c : Char} {n : Nat} (h : c ∈ natDigits n) :
    c ≠ '#' :=
  mem_natDigitsAux_ne_hash (Nat.lt_succ_self n) h

theorem foldl_digits_natDigitsAux :
    ∀ (fuel n : Nat), n < fuel → ∀ (a : Nat),
      (natDigitsAux fuel n).foldl (fun a c => a * 10 + (c.toNat - 48)) a =
        a * 10 ^ (natDigitsAux fuel n).length + n := by
  intro fuel
  induction fuel with
  | zero => intro n h; omega
  | succ fuel ih =>
    intro n hn a
    rw [natDigitsAux]
    by_cases h10 : n < 10
    · rw [if_pos h10]
      simp [List.foldl, digitChar_toNat h10]
    · rw [if_neg h10]
      have hdiv : n / 10 < fuel := by
        have := Nat.div_lt_self (by omega : 0 < n) (by omega : (1 : Nat) < 10)
        omega
      rw [List.foldl_append, ih _ hdiv]
      have hm : n % 10 < 10 := Nat.mod_lt _ (by omega)
      simp only [List.foldl, List.length_append, List.length_singleton,
        digitChar_toNat hm]
      have hmod : 48 + n % 10 - 48 = n % 10 := by omega
      rw [hmod, pow_succ]
      have := Nat.div_add_mod n 10
      ring_nf
      omega

theorem charsToNat_natDigits (n : Nat) : charsToNat (natDigits n) = n := by
  unfold charsToNat natDigits
  rw [foldl_digits_natDigitsAux (n + 1) n (Nat.lt_succ_self n)]
  simp

theorem foldl_digits_replicate_zero (k : Nat) :
    (List.replicate k '0').foldl (fun a c => a * 10 + (c.toNat - 48)) 0 = 0 := by
  induction k with
  | zero => rfl
  | succ k ih =>
    rw [List.replicate_succ]
    simpa using ih

theorem charsToNat_zfill (k : Nat) (cs : List Char) :
    charsToNat (List.replicate k '0' ++ cs) = charsToNat cs := by
  unfold charsToNat
  rw [List.foldl_append, foldl_digits_replicate_zero]

theorem charsToNat_pyZfill_natDigits (w n : Nat) :
    charsToNat (pyZfillChars w (natDigits n)) = n := by
  rw [pyZfillChars, charsToNat_zfill, charsToNat_natDigits]

theorem pySplitChars_ne_nil (sep : Char) (cs : List Char) :
    pySplitChars sep cs ≠ [] := by
  cases cs with
  | nil => simp [pySplitChars]
  | cons c cs =>
    rw [pySplitChars]
    rcases h : pySplitChars sep cs with _ | ⟨r, rs⟩
    · simp
    · simp only []
      split <;> simp

theorem pySplitChars_of_not_mem {sep : Char} {cs : List Char} (h : sep ∉ cs) :
    pySplitChars sep cs = [cs] := by
  induction cs with
  | nil => rfl
  | cons c cs ih =>
    have hc : c ≠ sep := fun he => h (he ▸ List.mem_cons_self c cs)
    have hcs : sep ∉ cs := fun hm => h (List.mem_cons_of_mem _ hm)
    rw [pySplitChars, ih hcs]
    simp [hc]

theorem pySplitChars_append {sep : Char} {l1 : List Char} (l2 : List Char)
    (h : sep ∉ l1) :
    pySplitChars sep (l1 ++ sep :: l2) = l1 :: pySplitChars sep l2 := by
  induction l1 with
  | nil =>
    simp only [List.nil_append]
    rw [pySplitChars]
    rcases hs : pySplitChars sep l2 with _ | ⟨r, rs⟩
    · exact absurd hs (pySplitChars_ne_nil sep l2)
    · simp
  | cons c l1 ih =>
    have hc : c ≠ sep := fun he => h (he ▸ List.mem_cons_self c l1)
    have hl1 : sep ∉ l1 := fun hm => h (List.mem_cons_of_mem _ hm)
    simp only [List.cons_append]
    rw [pySplitChars, ih hl1]
    simp [hc]


theorem softmax2_facts (x0 x1 : ℝ) :
    ((argmaxLabel x0 x1).1 = "POSITIVE" ∨ (argmaxLabel x0 x1).1 = "NEGATIVE") ∧
    0 ≤ (argmaxLabel x0 x1).2 ∧ (argmaxLabel x0 x1).2 ≤ 1 ∧
    (argmaxLabel x0 x1).2 = max (softmax2 x0 x1).1 (softmax2 x0 x1).2 ∧
    (softmax2 x0 x1).1 + (softmax2 x0 x1).2 = 1 := by
  have he0 : 0 < Real.exp (x0 - max x0 x1) := Real.exp_pos _
  have he1 : 0 < Real.exp (x1 - max x0 x1) := Real.exp_pos _
  have hs : 0 < Real.exp (x0 - max x0 x1) + Real.exp (x1 - max x0 x1) := by
    linarith
  have hsum : (softmax2 x0 x1).1 + (softmax2 x0 x1).2 = 1 := by
    simp only [softmax2]
    rw [div_add_div_same, div_self hs.ne']
  have h01 : 0 ≤ (softmax2 x0 x1).1 ∧ (softmax2 x0 x1).1 ≤ 1 := by
    constructor
    · exact le_of_lt (div_pos he0 hs)
    · rw [softmax2]
      exact (div_le_one hs).mpr (by linarith)
  have h02 : 0 ≤ (softmax2 x0 x1).2 ∧ (softmax2 x0 x1).2 ≤ 1 := by
    constructor
    · exact le_of_lt (div_pos he1 hs)
    · rw [softmax2]
      exact (div_le_one hs).mpr (by linarith)
  by_cases hlt : (softmax2 x0 x1).1 < (softmax2 x0 x1).2
  · have hl : argmaxLabel x0 x1 = ("POSITIVE", (softmax2 x0 x1).2) := by
      rw [argmaxLabel, if_pos hlt]
    rw [hl]
    refine ⟨Or.inl rfl, h02.1, h02.2, ?_, hsum⟩
    exact (max_eq_right (le_of_lt hlt)).symm
  · have hl : argmaxLabel x0 x1 = ("NEGATIVE", (softmax2 x0 x1).1) := by
      rw [argmaxLabel, if_neg hlt]
    rw [hl]
    refine ⟨Or.inr rfl, h01.1, h01.2, ?_, hsum⟩
    exact (max_eq_left (le_of_not_lt hlt)).symm


/-! ## Key-schema lemmas -/

theorem listBegins_append (p rest : List Char) :
    listBegins p (p ++ rest) = true := by
  induction p with
  | nil => rfl
  | cons c cs ih => simp [listBegins, ih]

theorem beginsWith_append (p s : String) : beginsWith p (p ++ s) = true := by
  rw [beginsWith, String.data_append]
  exact listBegins_append p.data s.data

/-- Parsing the numeric row index back out of a row sort key inverts the
zero-padded encoding. -/
theorem rowOfSK_key (i : Nat) :
    rowOfSK ("ROW#" ++ String.mk (pyZfillChars 6 (natDigits i))) = i := by
  rw [rowOfSK]
  have hdata : ("ROW#" ++ String.mk (pyZfillChars 6 (natDigits i))).data =
      ['R', 'O', 'W'] ++ '#' :: pyZfillChars 6 (natDigits i) := by
    rw [String.data_append]
    rfl
  have hnm : '#' ∉ pyZfillChars 6 (natDigits i) := by
    intro hm
    rw [pyZfillChars] at hm
    rcases List.mem_append.mp hm with h | h
    · exact absurd (List.eq_of_mem_replicate h) (by decide)
    · exact (mem_natDigits_ne_hash h) rfl
  rw [hdata, pySplitChars_append _ (by decide), pySplitChars_of_not_mem hnm]
  simp [charsToNat_pyZfill_natDigits]

theorem rowSK_inj {i j : Nat}
    (h : ("ROW#" ++ String.mk (pyZfillChars 6 (natDigits i))) =
         ("ROW#" ++ String.mk (pyZfillChars 6 (natDigits j)))) : i = j := by
  have := congrArg rowOfSK h
  rwa [rowOfSK_key, rowOfSK_key] at this

theorem user_pk_ne_batch_pk (u b : String) :
    ("USER#" ++ u) ≠ ("BATCH#" ++ b) := by
  intro h
  have := congrArg String.data h
  rw [String.data_append, String.data_append] at this
  have hu : ("USER#" : String).data = ['U', 'S', 'E', 'R', '#'] := rfl
  have hb : ("BATCH#" : String).data = ['B', 'A', 'T', 'C', 'H', '#'] := rfl
  rw [hu, hb] at this
  exact absurd (List.head_eq_of_cons_eq this) (by decide)

theorem rowSK_ne_summary (i : Nat) :
    ("ROW#" ++ String.mk (pyZfillChars 6 (natDigits i))) ≠ "SUMMARY" := by
  intro h
  have := congrArg String.data h
  rw [String.data_append] at this
  have hr : ("ROW#" : String).data = ['R', 'O', 'W', '#'] := rfl
  rw [hr] at this
  exact absurd (List.head_eq_of_cons_eq this) (by decide)

/-! ## Fresh writes append to the table -/

theorem putItem_fresh {store : Store} {it : Item}
    (h : ∀ j ∈ store, ¬(j.PK = it.PK ∧ j.SK = it.SK)) :
    putItem store it = it :: store := by
  rw [putItem]
  congr 1
  rw [List.filter_eq_self]
  intro j hj
  have hj2 := h j hj
  simp only [Bool.not_eq_true', Bool.and_eq_true, beq_iff_eq, not_and] at *
  by_cases hp : j.PK = it.PK
  · simp [hp, hj2 hp]
  · simp [hp]

theorem foldl_putItem_fresh {store : Store} {items : List Item}
    (hstore : ∀ it ∈ items, ∀ j ∈ store, ¬(j.PK = it.PK ∧ j.SK = it.SK))
    (hpair : items.Pairwise fun a b => ¬(a.PK = b.PK ∧ a.SK = b.SK)) :
    items.foldl (fun st it => putItem st it) store = items.reverse ++ store := by
  induction items generalizing store with
  | nil => rfl
  | cons it rest ih =>
    rw [List.foldl_cons,
      putItem_fresh (hstore it (List.mem_cons_self it rest))]
    rw [ih]
    · simp
    · intro it2 h2 j hj
      rcases List.mem_cons.mp hj with rfl | hj
      · exact List.rel_of_pairwise_cons hpair h2
      · exact hstore it2 (List.mem_cons_of_mem _ h2) j hj
    · exact List.Pairwise.of_cons hpair

theorem runPuts_ok (store : Store) (items : List Item) :
    runPuts okPut store items =
      items.foldl (fun st it => putItem st it) store := by
  induction items generalizing store with
  | nil => rfl
  | cons it rest ih => rw [runPuts, okPut, ih, List.foldl_cons]

/-- When the batch id is fresh in the table and the row indices are
pairwise distinct, `save_batch_results` appends its items to the table. -/
theorem save_batch_results_fresh {store : Store} {batch_id : String}
    {results : List RowResult} {ts : Int} {now : String}
    (hfresh : ∀ it ∈ store,
      it.PK ≠ "BATCH#" ++ batch_id ∧ it.SK ≠ "BATCH#" ++ batch_id)
    (hnd : (results.map fun r => r.row).Nodup) :
    save_batch_results okPut store batch_id results ts now =
      (batchItems batch_id results ts now).reverse ++ store := by
  rw [save_batch_results, runPuts_ok]
  apply foldl_putItem_fresh
  · intro it hit j hj
    rw [batchItems] at hit
    intro hk
    rcases List.mem_append.mp hit with hit | hlink
    · rcases List.mem_append.mp hit with hrow | hsum
      · rcases List.mem_map.mp hrow with ⟨r, _, rfl⟩
        exact (hfresh j hj).1 hk.1
      · rcases List.mem_singleton.mp hsum with rfl
        exact (hfresh j hj).1 hk.1
    · rcases results with _ | ⟨r0, rest⟩
      · simp [linkItems] at hlink
      · rcases List.mem_singleton.mp (by simpa [linkItems] using hlink) with rfl
        exact (hfresh j hj).2 hk.2
  · rw [batchItems]
    rcases results with _ | ⟨r0, rest⟩
    · simp [linkItems]
    · rw [linkItems, List.pairwise_append]
      refine ⟨?_, ?_, ?_⟩
      · rw [List.pairwise_append]
        refine ⟨?_, List.pairwise_singleton _ _, ?_⟩
        · rw [List.pairwise_map]
          have hpw : List.Pairwise (fun a b : RowResult => a.row ≠ b.row)
              (r0 :: rest) := (List.pairwise_map.mp (hnd : _)).imp (by tauto)
          exact hpw.imp fun hne hk => hne (rowSK_inj hk.2)
        · intro a ha b hb hk
          rcases List.mem_singleton.mp hb with rfl
          rcases List.mem_map.mp ha with ⟨r, _, rfl⟩
          exact rowSK_ne_summary r.row hk.2
      · simp
      · intro a ha b hb hk
        rcases List.mem_singleton.mp hb with rfl
        rcases List.mem_append.mp ha with hrow | hsum
        · rcases List.mem_map.mp hrow with ⟨r, _, rfl⟩
          exact user_pk_ne_batch_pk _ _ hk.1.symm
        · rcases List.mem_singleton.mp hsum with rfl
          exact user_pk_ne_batch_pk _ _ hk.1.symm

/-! ## Reading a freshly saved batch back -/

theorem filter_row_saved {store : Store} {batch_id : String}
    {results : List RowResult} {ts : Int} {now : String}
    (hfresh : ∀ it ∈ store,
      it.PK ≠ "BATCH#" ++ batch_id ∧ it.SK ≠ "BATCH#" ++ batch_id)
    (hnd : (results.map fun r => r.row).Nodup) :
    ((save_batch_results okPut store batch_id results ts now).filter fun it =>
        it.PK == ("BATCH#" ++ batch_id) && beginsWith "ROW#" it.SK) =
      (results.map (rowItem batch_id ts)).reverse := by
  rw [save_batch_results_fresh hfresh hnd, List.filter_append,
    List.filter_reverse, batchItems, List.filter_append, List.filter_append]
  have h1 : (results.map (rowItem batch_id ts)).filter (fun it =>
      it.PK == ("BATCH#" ++ batch_id) && beginsWith "ROW#" it.SK) =
      results.map (rowItem batch_id ts) := by
    rw [List.filter_eq_self]
    intro it hit
    rcases List.mem_map.mp hit with ⟨r, _, rfl⟩
    simp [rowItem, beginsWith_append]
  have h2 : ([summaryItem batch_id results ts now] : List Item).filter (fun it =>
      it.PK == ("BATCH#" ++ batch_id) && beginsWith "ROW#" it.SK) = [] := by
    simp [summaryItem, beginsWith]
    decide
  have h3 : (linkItems batch_id results ts now).filter (fun it =>
      it.PK == ("BATCH#" ++ batch_id) && beginsWith "ROW#" it.SK) = [] := by
    rcases results with _ | ⟨r0, rest⟩
    · rfl
    · rw [linkItems]
      simp [userLinkItem, user_pk_ne_batch_pk]
  have h4 : store.filter (fun it =>
      it.PK == ("BATCH#" ++ batch_id) && beginsWith "ROW#" it.SK) = [] := by
    rw [List.filter_eq_nil_iff]
    intro it hit
    simp [(hfresh it hit).1]
  rw [h1, h2, h3, h4]
  simp

theorem getItem_summary_saved {store : Store} {batch_id : String}
    {results : List RowResult} {ts : Int} {now : String}
    (hfresh : ∀ it ∈ store,
      it.PK ≠ "BATCH#" ++ batch_id ∧ it.SK ≠ "BATCH#" ++ batch_id)
    (hnd : (results.map fun r => r.row).Nodup) :
    getItem (save_batch_results okPut store batch_id results ts now)
        ("BATCH#" ++ batch_id) "SUMMARY" =
      some (summaryItem batch_id results ts now) := by
  rw [save_batch_results_fresh hfresh hnd, getItem, List.find?_append, batchItems,
    List.reverse_append, List.reverse_append, List.find?_append, List.find?_append]
  have h3 : (linkItems batch_id results ts now).reverse.find? (fun it =>
      it.PK == ("BATCH#" ++ batch_id) && it.SK == "SUMMARY") = none := by
    rcases results with _ | ⟨r0, rest⟩
    · rfl
    · rw [linkItems]
      simp [userLinkItem, user_pk_ne_batch_pk]
  have h2 : ([summaryItem batch_id results ts now] : List Item).reverse.find?
      (fun it => it.PK == ("BATCH#" ++ batch_id) && it.SK == "SUMMARY") =
      some (summaryItem batch_id results ts now) := by
    simp [summaryItem]
  rw [h3, h2]
  rfl

theorem rowView_of_rowItem (batch_id : String) (ts : Int) (r : RowResult) :
    ({ row := rowOfSK (rowItem batch_id ts r).SK,
       text := (rowItem batch_id ts r).text,
       sentiment := (rowItem batch_id ts r).sentiment,
       confidence := (rowItem batch_id ts r).confidence,
       status := (rowItem batch_id ts r).status } : RowView) = rowView r := by
  rw [rowView]
  congr 1
  exact rowOfSK_key r.row

theorem saved_query_of_le {store : Store} {batch_id : String}
    {results : List RowResult} {ts : Int} {now : String}
    (hfresh : ∀ it ∈ store,
      it.PK ≠ "BATCH#" ++ batch_id ∧ it.SK ≠ "BATCH#" ++ batch_id)
    (hnd : (results.map fun r => r.row).Nodup)
    (hlen : results.length ≤ 1000) :
    (queryBegins (save_batch_results okPut store batch_id results ts now)
        ("BATCH#" ++ batch_id) "ROW#" 1000).Perm
      (results.map (rowItem batch_id ts)) := by
  rw [queryBegins, filter_row_saved hfresh hnd]
  rw [List.take_of_length_le]
  · exact ((List.mergeSort_perm _ _).trans (List.reverse_perm _)).trans
      (List.Perm.refl _)
  · rw [List.length_mergeSort, List.length_reverse, List.length_map]
    exact hlen

theorem saved_query_len_of_gt {store : Store} {batch_id : String}
    {results : List RowResult} {ts : Int} {now : String}
    (hfresh : ∀ it ∈ store,
      it.PK ≠ "BATCH#" ++ batch_id ∧ it.SK ≠ "BATCH#" ++ batch_id)
    (hnd : (results.map fun r => r.row).Nodup)
    (hlen : 1000 < results.length) :
    (queryBegins (save_batch_results okPut store batch_id results ts now)
        ("BATCH#" ++ batch_id) "ROW#" 1000).length = 1000 := by
  rw [queryBegins, filter_row_saved hfresh hnd, List.length_take,
    List.length_mergeSort, List.length_reverse, List.length_map]
  omega

theorem sorted_views_eq {parsed target : List RowView}
    (hperm : parsed.Perm target)
    (htarget : target.map (fun v => v.row) = List.range target.length) :
    parsed.mergeSort (fun a b => decide (a.row ≤ b.row)) = target := by
  have hsortperm : (parsed.mergeSort fun a b => decide (a.row ≤ b.row)).Perm
      target := (List.mergeSort_perm _ _).trans hperm
  have hndtarget : (target.map fun v => v.row).Nodup := by
    rw [htarget]
    exact List.nodup_range _
  have hndsort : ((parsed.mergeSort fun a b => decide (a.row ≤ b.row)).map
      fun v => v.row).Nodup :=
    (hsortperm.map fun v => v.row).symm.nodup hndtarget
  have hle : List.Pairwise (fun a b : RowView => a.row ≤ b.row)
      (parsed.mergeSort fun a b => decide (a.row ≤ b.row)) := by
    have := @List.sorted_mergeSort RowView
      (fun a b : RowView => decide (a.row ≤ b.row))
      (fun a b c hab hbc => by
        simp only [decide_eq_true_eq] at *
        omega)
      (fun a b => by
        simp only [Bool.or_eq_true, decide_eq_true_eq]
        omega)
      parsed
    exact this.imp fun h => of_decide_eq_true h
  have hne : List.Pairwise (fun a b : RowView => a.row ≠ b.row)
      (parsed.mergeSort fun a b => decide (a.row ≤ b.row)) :=
    List.pairwise_map.mp hndsort
  have hlt1 : List.Pairwise (fun a b : RowView => a.row < b.row)
      (parsed.mergeSort fun a b => decide (a.row ≤ b.row)) :=
    (hle.and hne).imp fun h => lt_of_le_of_ne h.1 h.2
  have hlt2 : List.Pairwise (fun a b : RowView => a.row < b.row) target := by
    have : List.Pairwise (fun a b : Nat => a < b) (target.map fun v => v.row) := by
      rw [htarget]
      exact List.pairwise_lt_range _
    exact List.pairwise_map.mp this
  haveI : IsAntisymm RowView (fun a b => a.row < b.row) :=
    ⟨fun a b h1 h2 => absurd h2 (Nat.lt_asymm h1)⟩
  exact List.eq_of_perm_of_sorted hsortperm hlt1 hlt2

theorem get_batch_results_found {store : Store} {batch_id : String} {s : Item}
    (h : getItem store ("BATCH#" ++ batch_id) "SUMMARY" = some s) :
    get_batch_results store batch_id =
      .found { batch_id := batch_id, status := s.status,
               total_rows := s.total_rows, success_count := s.success_count,
               failed_count := s.failed_count, completed_at := s.completed_at,
               results := ((queryBegins store ("BATCH#" ++ batch_id) "ROW#"
                   1000).map fun it =>
                 ({ row := rowOfSK it.SK, text := it.text,
                    sentiment := it.sentiment, confidence := it.confidence,
                    status := it.status } : RowView)).mergeSort
                 fun a b => decide (a.row ≤ b.row) } := by
  unfold get_batch_results
  rw [h]

/-- C6, amended: the round trip holds for batches of at most 1000 rows
(the read-side page limit), written under a fresh batch id. -/
theorem claim_C6_amended (store : Store) (batch_id : String)
    (results : List RowResult) (ts : Int) (now : String)
    (hrows : results.map (fun r => r.row) = List.range results.length)
    (hlen : results.length ≤ 1000)
    (hfresh : ∀ it ∈ store,
      it.PK ≠ "BATCH#" ++ batch_id ∧ it.SK ≠ "BATCH#" ++ batch_id) :
    get_batch_results (save_batch_results okPut store batch_id results ts now)
        batch_id =
      .found { batch_id := batch_id, status := "COMPLETED",
               total_rows := results.length,
               success_count := successCount results,
               failed_count := results.length - successCount results,
               completed_at := now,
               results := results.map rowView } := by
  have hnd : (results.map fun r => r.row).Nodup := by
    rw [hrows]
    exact List.nodup_range _
  have hres : (((queryBegins
      (save_batch_results okPut store batch_id results ts now)
      ("BATCH#" ++ batch_id) "ROW#" 1000).map fun it =>
        ({ row := rowOfSK it.SK, text := it.text, sentiment := it.sentiment,
           confidence := it.confidence, status := it.status } : RowView)).mergeSort
      fun a b => decide (a.row ≤ b.row)) = results.map rowView := by
    apply sorted_views_eq
    · have hq := (@saved_query_of_le store batch_id results ts now hfresh hnd
        hlen).map fun it =>
        ({ row := rowOfSK it.SK, text := it.text, sentiment := it.sentiment,
           confidence := it.confidence, status := it.status } : RowView)
      rw [List.map_map] at hq
      have hmap : results.map ((fun it =>
          ({ row := rowOfSK it.SK, text := it.text, sentiment := it.sentiment,
             confidence := it.confidence, status := it.status } : RowView)) ∘
          rowItem batch_id ts) = results.map rowView :=
        List.map_congr_left fun r _ => rowView_of_rowItem batch_id ts r
      rw [hmap] at hq
      exact hq
    · rw [List.map_map, List.length_map]
      have : (fun v : RowView => v.row) ∘ rowView = fun r : RowResult => r.row :=
        rfl
      rw [this, hrows]
  rw [get_batch_results_found (getItem_summary_saved hfresh hnd), hres]
  rfl

theorem gbResLen_le_1000 (store : Store) (batch_id : String) :
    gbResLen (get_batch_results store batch_id) ≤ 1000 := by
  cases h : getItem store ("BATCH#" ++ batch_id) "SUMMARY" with
  | none =>
    unfold get_batch_results
    rw [h]
    exact Nat.zero_le _
  | some s =>
    rw [get_batch_results_found h]
    show ((queryBegins store ("BATCH#" ++ batch_id) "ROW#" 1000).map _
        |>.mergeSort _).length ≤ 1000
    rw [List.length_mergeSort, List.length_map, queryBegins, List.length_take]
    exact min_le_left _ _

theorem get_batch_saved_gt1000 {store : Store} {batch_id : String}
    {results : List RowResult} {ts : Int} {now : String}
    (hrows : results.map (fun r => r.row) = List.range results.length)
    (hgt : 1000 < results.length)
    (hfresh : ∀ it ∈ store,
      it.PK ≠ "BATCH#" ++ batch_id ∧ it.SK ≠ "BATCH#" ++ batch_id) :
    gbTotal (get_batch_results
        (save_batch_results okPut store batch_id results ts now) batch_id) =
      results.length ∧
    gbResLen (get_batch_results
        (save_batch_results okPut store batch_id results ts now) batch_id) =
      1000 := by
  have hnd : (results.map fun r => r.row).Nodup := by
    rw [hrows]
    exact List.nodup_range _
  rw [get_batch_results_found (getItem_summary_saved hfresh hnd)]
  constructor
  · rfl
  · show ((queryBegins _ ("BATCH#" ++ batch_id) "ROW#" 1000).map _
        |>.mergeSort _).length = 1000
    rw [List.length_mergeSort, List.length_map,
      @saved_query_len_of_gt store batch_id results ts now hfresh hnd hgt]

theorem denseRows_length (n : Nat) : (denseRows n).length = n := by
  simp [denseRows]

theorem denseRows_rows (n : Nat) :
    (denseRows n).map (fun r => r.row) = List.range (denseRows n).length := by
  rw [denseRows_length, denseRows, List.map_map]
  have h : ((fun r : RowResult => r.row) ∘ denseRow) = fun i => i := rfl
  rw [h]
  exact List.map_id' _

/-- C6 counterexample: a batch of 1001 rows written via `save_batch_results`
reads back with `total_rows = 1001` but only 1000 row results — the read
page limit truncates the result list, so the round trip does not return all
`n` row results. -/
theorem claim_C6_counterexample :
    gbTotal (get_batch_results
        (save_batch_results okPut [] "b1" (denseRows 1001) 0 "T") "b1") =
      1001 ∧
    gbResLen (get_batch_results
        (save_batch_results okPut [] "b1" (denseRows 1001) 0 "T") "b1") =
      1000 := by
  have h := @get_batch_saved_gt1000 [] "b1" (denseRows 1001) 0 "T"
    (denseRows_rows 1001) (by rw [denseRows_length]; omega) (by simp)
  rwa [denseRows_length] at h

/-- C10: `get_batch_results` queries the ROW# items with a fixed page limit
of 1000, so every read returns at most 1000 row results; a freshly written
batch of more than 1000 rows reads back with its full `total_rows` count but
exactly 1000 row results. -/
theorem claim_C10 :
    (∀ (store : Store) (batch_id : String),
      gbResLen (get_batch_results store batch_id) ≤ 1000) ∧
    (∀ (store : Store) (batch_id : String) (results : List RowResult)
        (ts : Int) (now : String),
      results.map (fun r => r.row) = List.range results.length →
      1000 < results.length →
      (∀ it ∈ store,
        it.PK ≠ "BATCH#" ++ batch_id ∧ it.SK ≠ "BATCH#" ++ batch_id) →
      gbTotal (get_batch_results
          (save_batch_results okPut store batch_id results ts now) batch_id) =
        results.length ∧
      gbResLen (get_batch_results
          (save_batch_results okPut store batch_id results ts now) batch_id) =
        1000) :=
  ⟨gbResLen_le_1000, fun _ _ _ _ _ h1 h2 h3 => get_batch_saved_gt1000 h1 h2 h3⟩

/-- C10 witness: the 1001-row batch instantiates the truncation statement. -/
theorem claim_C10_witness :
    (denseRows 1001).map (fun r => r.row) =
      List.range (denseRows 1001).length ∧
    1000 < (denseRows 1001).length ∧
    gbTotal (get_batch_results
        (save_batch_results okPut [] "b2" (denseRows 1001) 5 "W") "b2") =
      (denseRows 1001).length ∧
    gbResLen (get_batch_results
        (save_batch_results okPut [] "b2" (denseRows 1001) 5 "W") "b2") =
      1000 := by
  have h1 := denseRows_rows 1001
  have h2 : 1000 < (denseRows 1001).length := by
    rw [denseRows_length]
    omega
  have h3 : ∀ it ∈ ([] : Store),
      it.PK ≠ "BATCH#" ++ "b2" ∧ it.SK ≠ "BATCH#" ++ "b2" := by simp
  have h := claim_C10.2 [] "b2" (denseRows 1001) 5 "W" h1 h2 h3
  exact ⟨h1, h2, h.1, h.2⟩

theorem dropWhile_replicate_of_neg {p : Char → Bool} {c : Char}
    (h : p c = false) (n : Nat) :
    List.dropWhile p (List.replicate n c) = List.replicate n c := by
  cases n with
  | zero => rfl
  | succ n =>
    rw [List.replicate_succ, List.dropWhile_cons, if_neg (by simp [h])]

theorem longText_length : longText.length = 5001 := by
  rw [longText, String.length_mk, List.length_replicate]

theorem pyStrip_mk (l : List Char) :
    pyStrip ⟨l⟩ =
      ⟨((l.dropWhile isPySpace).reverse.dropWhile isPySpace).reverse⟩ := rfl

theorem pyStrip_longText : pyStrip longText = longText := by
  have h : isPySpace 'a' = false := by decide
  rw [longText, pyStrip_mk, dropWhile_replicate_of_neg h,
    List.reverse_replicate, dropWhile_replicate_of_neg h,
    List.reverse_replicate]

/-! ## Claims -/

/-- C1: evaluating the batch loop on a batch whose middle row makes the
engine raise inside `analyze_sentiment`.  The sentinel is returned for that
row, every subsequent row is still processed, but the sentinel row is
recorded with `status = success` (and no error message) and counted as a
success — the code contradicts the specified conversion of the ERROR
sentinel to a failed row. -/
theorem claim_C1_bug :
    processRows (.ok ()) engFaultOnBad
        (mkRows ["good", "bad input", "also good"] (some "u")) =
      [{ row := 0, text := "good", user_id := some "u",
         sentiment := "POSITIVE", confidence := 9/10, status := "success",
         error := none },
       { row := 1, text := "bad input", user_id := some "u",
         sentiment := "ERROR", confidence := 0, status := "success",
         error := none },
       { row := 2, text := "also good", user_id := some "u",
         sentiment := "POSITIVE", confidence := 9/10, status := "success",
         error := none }] ∧
    successCount (processRows (.ok ()) engFaultOnBad
        (mkRows ["good", "bad input", "also good"] (some "u"))) = 3 := by
  refine ⟨by rfl, by decide⟩

/-- C2 counterexample: when the engine raises, the single-text
`analyze_sentiment` propagates the exception instead of returning the
`{ERROR, 0.0, error}` sentinel, and `lambda_handler` turns it into a 500
response. -/
theorem claim_C2_counterexample :
    analyze_sentiment_single (.ok ()) engBoom "hello" = .error "boom" ∧
    lambda_handler_single (.ok ()) engBoom true (some "tbl") (.ok ())
        { text := "hello", user_id := none } =
      { statusCode := 500,
        body := .serverError "Internal server error" "boom" } := by
  refine ⟨rfl, by decide⟩

/-- C2, amended: on an exception during tokenize/forward pass, the batch
path returns the `{ERROR, 0.0, error}` sentinel, while the single-text
path propagates the exception to its handler. -/
theorem claim_C2_amended (engine : String → Except String RawResult)
    (text e : String) (he : engine text = .error e) :
    analyze_sentiment_batch (.ok ()) engine text =
      .ok { sentiment := "ERROR", confidence := 0, error := some e } ∧
    analyze_sentiment_single (.ok ()) engine text = .error e := by
  constructor
  · unfold analyze_sentiment_batch
    rw [he]
    rfl
  · unfold analyze_sentiment_single
    rw [he]
    rfl

/-- C2 witness: the amended statement at the always-raising engine. -/
theorem claim_C2_witness :
    engBoom "x" = .error "boom" ∧
    analyze_sentiment_batch (.ok ()) engBoom "x" =
      .ok { sentiment := "ERROR", confidence := 0, error := some "boom" } ∧
    analyze_sentiment_single (.ok ()) engBoom "x" = .error "boom" := by
  refine ⟨rfl, ?_⟩
  exact claim_C2_amended engBoom "x" "boom" rfl

/-- C3: for every text of length 1 to 5000, `infer` returns a label in
{POSITIVE, NEGATIVE}, a confidence in [0, 1] equal to the maximum of the
two post-softmax class probabilities, and the two class probabilities sum
to 1. -/
theorem claim_C3 (logits : String → ℝ × ℝ) (t : String)
    (h1 : 1 ≤ t.length) (h2 : t.length ≤ 5000) :
    ((infer logits t).1 = "POSITIVE" ∨ (infer logits t).1 = "NEGATIVE") ∧
    0 ≤ (infer logits t).2 ∧ (infer logits t).2 ≤ 1 ∧
    (infer logits t).2 =
      max (softmax2 (logits t).1 (logits t).2).1
        (softmax2 (logits t).1 (logits t).2).2 ∧
    (softmax2 (logits t).1 (logits t).2).1 +
        (softmax2 (logits t).1 (logits t).2).2 = 1 :=
  softmax2_facts (logits t).1 (logits t).2

/-- C3 witness: the statement at a concrete in-range text and a concrete
logit oracle. -/
theorem claim_C3_witness :
    1 ≤ ("I love this!" : String).length ∧
    ("I love this!" : String).length ≤ 5000 ∧
    (((infer (fun _ => ((0 : ℝ), (1 : ℝ))) "I love this!").1 = "POSITIVE" ∨
      (infer (fun _ => ((0 : ℝ), (1 : ℝ))) "I love this!").1 = "NEGATIVE") ∧
     0 ≤ (infer (fun _ => ((0 : ℝ), (1 : ℝ))) "I love this!").2 ∧
     (infer (fun _ => ((0 : ℝ), (1 : ℝ))) "I love this!").2 ≤ 1 ∧
     (infer (fun _ => ((0 : ℝ), (1 : ℝ))) "I love this!").2 =
       max (softmax2 (0 : ℝ) (1 : ℝ)).1 (softmax2 (0 : ℝ) (1 : ℝ)).2 ∧
     (softmax2 (0 : ℝ) (1 : ℝ)).1 + (softmax2 (0 : ℝ) (1 : ℝ)).2 = 1) :=
  ⟨by decide, by decide,
    claim_C3 (fun _ => ((0 : ℝ), (1 : ℝ))) "I love this!" (by decide)
      (by decide)⟩

theorem processRow_row (loadModel : Except String Unit)
    (engine : String → Except String RawResult) (row : RowInput) :
    (processRow loadModel engine row).row = row.row := by
  cases h : analyze_sentiment_batch loadModel engine row.text <;>
    simp [processRow, h]

/-- C4: for every batch of `n` input texts, the handler loop produces
exactly `n` row results whose `row` indices are `0, 1, ..., n-1` in input
order, for every engine and model-load outcome (hence regardless of which
rows fail). -/
theorem claim_C4 (loadModel : Except String Unit)
    (engine : String → Except String RawResult) (texts : List String)
    (user_id : Option String) :
    (processRows loadModel engine (mkRows texts user_id)).length =
      texts.length ∧
    (processRows loadModel engine (mkRows texts user_id)).map
        (fun r => r.row) = List.range texts.length := by
  constructor
  · simp [processRows, mkRows]
  · rw [processRows, List.map_map]
    have h1 : ((fun r : RowResult => r.row) ∘ processRow loadModel engine) =
        fun r => (processRow loadModel engine r).row := rfl
    rw [h1, List.map_congr_left fun r _ => processRow_row loadModel engine r,
      mkRows, List.map_map]
    have h2 : ((fun r : RowInput => r.row) ∘ (fun p : Nat × String =>
        ({ text := p.2, user_id := user_id.getD "batch-user",
           row := p.1 } : RowInput))) = Prod.fst := rfl
    rw [h2, List.enum_map_fst]

/-- C5: `success_count + failed_count = total_rows` holds both in the
persisted batch SUMMARY item and in the counts of the batch handler
response, where `success_count` counts rows with status `success` and
`failed_count` is the remainder. -/
theorem claim_C5 :
    (∀ (batch_id : String) (results : List RowResult) (ts : Int)
        (now : String),
      (summaryItem batch_id results ts now).success_count +
          (summaryItem batch_id results ts now).failed_count =
        (summaryItem batch_id results ts now).total_rows) ∧
    (∀ (loadModel : Except String Unit)
        (engine : String → Except String RawResult)
        (put : Item → Except String Unit) (store : Store) (ts : Int)
        (now : String) (ev : BatchEvent),
      batchBodySuccess
          (lambda_handler_batch loadModel engine put store ts now ev).1.body +
          batchBodyFailed
            (lambda_handler_batch loadModel engine put store ts now ev).1.body =
        batchBodyTotal
          (lambda_handler_batch loadModel engine put store ts now ev).1.body) := by
  have hsc : ∀ results : List RowResult,
      successCount results ≤ results.length :=
    fun results => List.length_filter_le _ _
  refine ⟨?_, ?_⟩
  · intro batch_id results ts now
    show successCount results + (results.length - successCount results) =
      results.length
    exact Nat.add_sub_cancel' (hsc results)
  · intro loadModel engine put store ts now ev
    by_cases h : ev.texts.isEmpty
    · simp [lambda_handler_batch, h, batchBodySuccess, batchBodyFailed,
        batchBodyTotal]
    · simp only [lambda_handler_batch, h, Bool.false_eq_true, if_false,
        batchBodySuccess, batchBodyFailed, batchBodyTotal]
      exact Nat.add_sub_cancel' (hsc _)

/-- C6 witness: the round trip at the three-row batch of the specification
example (two successes, one failure), written to an empty table. -/
theorem claim_C6_witness :
    wRows.map (fun r => r.row) = List.range wRows.length ∧
    wRows.length ≤ 1000 ∧
    get_batch_results (save_batch_results okPut [] "b1" wRows 0 "T") "b1" =
      .found { batch_id := "b1", status := "COMPLETED", total_rows := 3,
               success_count := 2, failed_count := 1, completed_at := "T",
               results := [
                 { row := 0, text := "I love this!",
                   sentiment := "POSITIVE", confidence := 99/100,
                   status := "success" },
                 { row := 1, text := "meh", sentiment := "ERROR",
                   confidence := 0, status := "failed" },
                 { row := 2, text := "great", sentiment := "POSITIVE",
                   confidence := 9/10, status := "success" }] } := by
  refine ⟨by decide, by decide, ?_⟩
  rw [claim_C6_amended [] "b1" wRows 0 "T" (by decide) (by decide) (by simp)]
  rfl

/-- C7, amended: the empty-after-trim and over-5000-character rejections
happen at the single-analyze request boundary, before the engine is
consulted; batch rows receive no such validation — a batch is accepted and
every row, of any content, is passed to inference. -/
theorem claim_C7_amended :
    (∀ (loadModel : Except String Unit)
        (engine : String → Except String RawResult) (awsAvailable : Bool)
        (tableName : Option String) (put : Except String Unit)
        (ev : AnalyzeEvent),
      ev.text = "" ∨ (pyStrip ev.text).length = 0 →
      lambda_handler_single loadModel engine awsAvailable tableName put ev =
        { statusCode := 400,
          body := .invalid "Text field is required and cannot be empty" }) ∧
    (∀ (loadModel : Except String Unit)
        (engine : String → Except String RawResult) (awsAvailable : Bool)
        (tableName : Option String) (put : Except String Unit)
        (ev : AnalyzeEvent),
      ¬(ev.text = "" ∨ (pyStrip ev.text).length = 0) →
      ev.text.length > 5000 →
      lambda_handler_single loadModel engine awsAvailable tableName put ev =
        { statusCode := 400,
          body := .invalid "Text exceeds maximum length of 5000 characters" }) ∧
    (∀ (loadModel : Except String Unit)
        (engine : String → Except String RawResult)
        (put : Item → Except String Unit) (store : Store) (ts : Int)
        (now : String) (ev : BatchEvent),
      ¬ev.texts.isEmpty →
      (lambda_handler_batch loadModel engine put store ts now ev).1.statusCode
          = 200 ∧
      batchBodyTotal
          (lambda_handler_batch loadModel engine put store ts now ev).1.body =
        ev.texts.length) := by
  refine ⟨?_, ?_, ?_⟩
  · intro loadModel engine awsAvailable tableName put ev h
    unfold lambda_handler_single
    rw [if_pos h]
  · intro loadModel engine awsAvailable tableName put ev h1 h2
    unfold lambda_handler_single
    rw [if_neg h1, if_pos h2]
  · intro loadModel engine put store ts now ev h
    constructor
    · simp [lambda_handler_batch, h]
    · simp [lambda_handler_batch, h, batchBodyTotal, processRows, mkRows]

/-- C7 counterexample: a batch whose only row is the empty string is not
rejected — the batch handler answers 200, the row reaches the engine and is
recorded (as a success), so the validation of empty/oversized texts does
not apply to batch rows. -/
theorem claim_C7_counterexample :
    (lambda_handler_batch (.ok ()) engPos okPut [] 0 "T"
        { texts := [""], user_id := none, batch_id := "b1" }).1 =
      { statusCode := 200,
        body := .ok { batch_id := "b1", total_rows := 1, success_count := 1,
                      failed_count := 0, status := "COMPLETED",
                      message := "Processed 1 rows successfully" } } := by
  decide

/-- C7 witness: the amended statement at a whitespace-only text, at a
5001-character text, and at a one-row batch. -/
theorem claim_C7_witness :
    lambda_handler_single (.ok ()) engPos true (some "tbl") (.ok ())
        { text := "   ", user_id := none } =
      { statusCode := 400,
        body := .invalid "Text field is required and cannot be empty" } ∧
    lambda_handler_single (.ok ()) engPos true (some "tbl") (.ok ())
        { text := longText, user_id := none } =
      { statusCode := 400,
        body := .invalid "Text exceeds maximum length of 5000 characters" } ∧
    (lambda_handler_batch (.ok ()) engPos okPut [] 0 "T"
        { texts := ["x"], user_id := none, batch_id := "b" }).1.statusCode =
      200 ∧
    batchBodyTotal (lambda_handler_batch (.ok ()) engPos okPut [] 0 "T"
        { texts := ["x"], user_id := none, batch_id := "b" }).1.body = 1 := by
  have h2 := claim_C7_amended.2.1 (.ok ()) engPos true (some "tbl") (.ok ())
    { text := longText, user_id := none }
    (by
      intro h
      rcases h with h | h
      · exact absurd (congrArg String.length h)
          (by rw [longText_length]; decide)
      · rw [pyStrip_longText] at h
        rw [longText_length] at h
        exact absurd h (by decide))
    (by rw [longText_length]; decide)
  have h3 := claim_C7_amended.2.2 (.ok ()) engPos okPut [] 0 "T"
    { texts := ["x"], user_id := none, batch_id := "b" } (by decide)
  exact ⟨claim_C7_amended.1 (.ok ()) engPos true (some "tbl") (.ok ())
    { text := "   ", user_id := none } (by decide), h2, h3.1, h3.2⟩

/-- C8: the timeline limit is clamped server-side into [1, 1000], with
default 50 when omitted; `limit = 5000` is served as 1000, `limit = 0` is
served as 10, and the history handler serves a user request with exactly
the clamped limit. -/
theorem claim_C8 :
    (∀ raw : Option Int,
      1 ≤ effectiveLimit raw ∧ effectiveLimit raw ≤ 1000) ∧
    effectiveLimit none = 50 ∧
    effectiveLimit (some 5000) = 1000 ∧
    effectiveLimit (some 0) = 10 ∧
    (∀ (store : Store) (user_id : String) (raw : Option Int),
      lambda_handler_history store
          { user_id := some user_id, batch_id := none, limit := raw } =
        { statusCode := 200,
          body := .history user_id
            (get_user_history store user_id (effectiveLimit raw).toNat).length
            (get_user_history store user_id (effectiveLimit raw).toNat) }) := by
  refine ⟨?_, rfl, rfl, rfl, fun store user_id raw => rfl⟩
  intro raw
  rcases raw with _ | l
  · exact ⟨by decide, by decide⟩
  · simp only [effectiveLimit, Option.getD_some]
    split_ifs <;> omega

/-- C9: a failed storage write never prevents returning inference results:
the single-text handler answers 200 with the inference result for every
`put_item` outcome (surfacing the failure only in `db_save_status`), and
the batch handler response does not depend on the storage oracle or table
state at all. -/
theorem claim_C9 :
    (∀ (loadModel : Except String Unit)
        (engine : String → Except String RawResult) (awsAvailable : Bool)
        (tableName : Option String) (put : Except String Unit)
        (ev : AnalyzeEvent) (r : SingleResult),
      ¬(ev.text = "" ∨ (pyStrip ev.text).length = 0) →
      ¬(ev.text.length > 5000) →
      analyze_sentiment_single loadModel engine ev.text = .ok r →
      lambda_handler_single loadModel engine awsAvailable tableName put ev =
        { statusCode := 200,
          body := .ok (ev.user_id.getD "anonymous") r.sentiment r.confidence
            r.text_preview (save_to_dynamodb awsAvailable tableName put) }) ∧
    (∀ (loadModel : Except String Unit)
        (engine : String → Except String RawResult)
        (put put2 : Item → Except String Unit) (store store2 : Store)
        (ts : Int) (now : String) (ev : BatchEvent),
      (lambda_handler_batch loadModel engine put store ts now ev).1 =
        (lambda_handler_batch loadModel engine put2 store2 ts now ev).1) := by
  constructor
  · intro loadModel engine awsAvailable tableName put ev r h1 h2 h3
    unfold lambda_handler_single
    rw [if_neg h1, if_neg h2, h3]
  · intro loadModel engine put put2 store store2 ts now ev
    by_cases h : ev.texts.isEmpty <;> simp [lambda_handler_batch, h]

/-- C9 witness: a failing `put_item` still yields a 200 response carrying
the inference result, and two different storage oracles yield identical
batch responses. -/
theorem claim_C9_witness :
    lambda_handler_single (.ok ()) engPos true (some "tbl")
        (.error "db down") { text := "great", user_id := some "u" } =
      { statusCode := 200,
        body := .ok "u" "POSITIVE" (9/10) (pySlice 100 "great")
          (save_to_dynamodb true (some "tbl") (.error "db down")) } ∧
    (lambda_handler_batch (.ok ()) engPos (fun _ => .error "db down") [] 0 "T"
        { texts := ["great"], user_id := none, batch_id := "b" }).1 =
      (lambda_handler_batch (.ok ()) engPos okPut [] 0 "T"
        { texts := ["great"], user_id := none, batch_id := "b" }).1 := by
  constructor
  · exact claim_C9.1 (.ok ()) engPos true (some "tbl") (.error "db down")
      { text := "great", user_id := some "u" }
      { sentiment := "POSITIVE", confidence := 9/10,
        text_preview := pySlice 100 "great" }
      (by decide) (by decide) rfl
  · exact claim_C9.2 (.ok ()) engPos (fun _ => .error "db down") okPut []
      [] 0 "T" { texts := ["great"], user_id := none, batch_id := "b" }

end SentimentPipeline
